import Mathlib

/-!
Shallow embedding of the `matrixdll` Go package (src/matrixDLL.go) and
verification of its specification claims.

The source contains three related variants of the package in one file:
* v1: `MatrixClient` with `SendCallInvite` / `SendCallAnswer` / `SendCandidates`
  and the `postJSON` helper with an explicit `http.NewRequest` step;
* v2: `Client` built on mautrix (`NewClient`, `StartCall`, `BuildOfferSDP`,
  `SendAudio`, `ReceiveAudio`);
* v3: `Client` built on `postJSON` (`NewClient`, `StartCall`, `SendAudio`,
  `ReceiveAudio`), where `StartCall` discards the errors of
  `CreateOffer` / `SetLocalDescription`.

External effects (HTTP, WebRTC, the uuid library, the wall clock) are passed
in as explicit inputs so every operation is a pure function of its inputs.
-/

namespace MatrixDLL

/-- JSON-like values, modelling the Go `map[string]interface{}` payloads. -/
inductive JValue where
  | str : String → JValue
  | num : Int → JValue
  | arr : List JValue → JValue
  | obj : List (String × JValue) → JValue
  | null : JValue

/-- Field lookup in a JSON object (first binding wins, as in a Go map with
distinct literal keys). -/
def JValue.lookup : JValue → String → Option JValue
  | .obj fields, k => (fields.find? (fun p => p.1 == k)).map Prod.snd
  | _, _ => none

/-- The keys of a JSON object, in source-literal order.  Go maps are
unordered, so claims about "exactly the keys" are stated up to permutation. -/
def JValue.keys : JValue → List String
  | .obj fields => fields.map Prod.fst
  | _ => []

/-! ## PCM byte codec (SendAudio / ReceiveAudio inner loops) -/

/-- Two's-complement value of `int16(lo) | int16(hi)<<8` for bytes `lo`, `hi`
(the per-sample expression in `SendAudio`).  Since the low 8 bits of
`int16(hi)<<8` are zero, the bitwise or is addition, and the int16 wraparound
is the signed interpretation of `lo + 256*hi` modulo 2^16. -/
def int16OfBytes (lo hi : Nat) : Int :=
  let u : Nat := lo % 256 + 256 * (hi % 256)
  if u < 32768 then (u : Int) else (u : Int) - 65536

/-- Little-endian bytes `(byte(v), byte(v >> 8))` of an int16 value `v`
(the per-sample expressions in `ReceiveAudio`): the low and high byte of the
two's-complement representation `v mod 2^16`. -/
def bytesOfInt16 (v : Int) : Nat × Nat :=
  let w : Nat := (v % 65536).toNat
  (w % 256, w / 256)

/-- The sample-parsing loop of `SendAudio`:
`n := len(data)/2; samples[i] = int16(data[2*i]) | int16(data[2*i+1])<<8`. -/
def parseSamples (data : List Nat) : List Int :=
  (List.range (data.length / 2)).map fun i =>
    int16OfBytes (data.getD (2 * i) 0) (data.getD (2 * i + 1) 0)

/-- The serialization loop of `ReceiveAudio`:
`out[2*i] = byte(v); out[2*i+1] = byte(v >> 8)` for each sample `v`. -/
def serializeSamples : List Int → List Nat
  | [] => []
  | v :: rest => (bytesOfInt16 v).1 :: (bytesOfInt16 v).2 :: serializeSamples rest

/-! ## Bounded non-blocking audio queues -/

/-- Buffer capacity of `dataCh` and `decodeCh`: `make(chan []int16, 50)`. -/
def chanCap : Nat := 50

/-- Non-blocking send on a buffered channel
(`select { case ch <- x: default: }`): if the buffer is full the value is
dropped, otherwise it is appended at the back. -/
def trySend (q : List (List Int)) (frame : List Int) : List (List Int) :=
  if q.length < chanCap then q ++ [frame] else q

/-! ## postJSON -/

/-- Error values `postJSON` can return, one constructor per `return err`
site in the source. -/
inductive PostError where
  | marshalErr : String → PostError
  | requestErr : String → PostError
  | netErr : String → PostError
  | httpErr : Nat → String → PostError
  | decodeErr : String → PostError

/-- The environment a `postJSON` call runs in: the outcome of
`json.Marshal`, of `http.NewRequest`, of performing the request
(`http.DefaultClient.Do` in v1, `http.Post` in v3 — an error, or a status
code and response body), and of `json.Decode` on the response body. -/
structure HttpEnv where
  marshalResult : Except String String
  newRequestErr : Option String
  doResult : Except String (Nat × String)
  decodeErr : Option String

/-- `postJSON` (v1, src lines 123-146; v3 lines 455-470 is the same with no
`http.NewRequest` step and with `out` always non-nil, i.e. `outNil = false`).
Returns `none` on success and the error otherwise. -/
def postJSON (env : HttpEnv) (outNil : Bool) : Option PostError :=
  match env.marshalResult with
  | .error m => some (.marshalErr m)
  | .ok _ =>
    match env.newRequestErr with
    | some m => some (.requestErr m)
    | none =>
      match env.doResult with
      | .error m => some (.netErr m)
      | .ok (status, body) =>
        if status ≥ 300 then some (.httpErr status body)
        else if outNil then none
        else
          match env.decodeErr with
          | some m => some (.decodeErr m)
          | none => none

/-- The request itself was performed: marshalling, request construction and
the HTTP round trip all succeeded. -/
def HttpEnv.performed (env : HttpEnv) : Bool :=
  env.marshalResult.isOk && env.newRequestErr.isNone && env.doResult.isOk

/-- The status code of the HTTP response, when one was received. -/
def HttpEnv.status (env : HttpEnv) : Option Nat :=
  match env.doResult with
  | .ok (s, _) => some s
  | .error _ => none

/-! ## MatrixClient (v1) -/

/-- `fmt.Sprintf(homeserver+sendEventPath, roomID, eventType, txn)`. -/
def sendEventURL (homeserver roomID eventType txn : String) : String :=
  homeserver ++ "/_matrix/client/r0/rooms/" ++ roomID ++ "/send/" ++ eventType
    ++ "/" ++ txn

/-- The v1 signaling client (struct `MatrixClient`).  The mutex only
serializes the methods; operations are modelled as sequential state
transformers. -/
structure MatrixClient where
  Homeserver : String
  AccessToken : String
  UserID : String
  RoomID : String
  CurrentCallID : String
  MyPartyID : String

/-- `NewMatrixClient`: logs in via `postJSON` (its outcome — the decoded
`loginResp` `(user_id, access_token)` or an error — is the `loginResult`
input), then constructs the client with a fresh `MyPartyID`
(`uuid.NewString()`, modelled as the draw `uuidOf g` from the process-wide
uuid supply; see `uuidSupply`).  `CurrentCallID` starts at the Go zero value
`""`. -/
def NewMatrixClient (uuidOf : Nat → String) (g : Nat)
    (homeserver roomID : String)
    (loginResult : Except PostError (String × String)) :
    Except PostError (MatrixClient × Nat) :=
  match loginResult with
  | .error e => .error e
  | .ok (userID, accessToken) =>
      .ok ({ Homeserver := homeserver, AccessToken := accessToken,
             UserID := userID, RoomID := roomID,
             CurrentCallID := "", MyPartyID := uuidOf g }, g + 1)

/-- Result of one v1 signaling method: the updated client, the next uuid
index, the URL posted to, the JSON payload, and the returned value. -/
structure SigSend (ρ : Type) where
  client : MatrixClient
  gen : Nat
  url : String
  payload : JValue
  ret : Except PostError ρ

/-- `SendCallInvite` (src lines 66-83): draws a fresh `call_id`
(`uuid.NewString()`), stores it in `CurrentCallID`, builds the invite
payload, draws a fresh transaction id, posts, and returns the `call_id`
(or `""` with the error when the post fails).  `post` is the outcome of the
`postJSON` call. -/
def MatrixClient.SendCallInvite (c : MatrixClient) (uuidOf : Nat → String)
    (g : Nat) (sdpOffer : String) (post : Option PostError) :
    SigSend String :=
  let callID := uuidOf g
  let c' := { c with CurrentCallID := callID }
  let invite : JValue := .obj [
    ("call_id", .str callID),
    ("party_id", .str c.MyPartyID),
    ("lifetime", .num 120000),
    ("offer", .obj [("type", .str "offer"), ("sdp", .str sdpOffer)]),
    ("version", .str "1")]
  let txn := uuidOf (g + 1)
  let url := sendEventURL c.Homeserver c.RoomID "m.call.invite" txn
  match post with
  | some e => ⟨c', g + 2, url, invite, .error e⟩
  | none => ⟨c', g + 2, url, invite, .ok callID⟩

/-- `SendCallAnswer` (src lines 87-102): adopts `callID` as
`CurrentCallID` when it is non-empty, otherwise keeps the stored one;
builds the answer payload from the (possibly updated) `CurrentCallID`;
posts with a fresh transaction id. -/
def MatrixClient.SendCallAnswer (c : MatrixClient) (uuidOf : Nat → String)
    (g : Nat) (sdpAnswer callID : String) (post : Option PostError) :
    SigSend Unit :=
  let c' := if callID ≠ "" then { c with CurrentCallID := callID } else c
  let answer : JValue := .obj [
    ("call_id", .str c'.CurrentCallID),
    ("party_id", .str c'.MyPartyID),
    ("answer", .obj [("type", .str "answer"), ("sdp", .str sdpAnswer)]),
    ("version", .str "1")]
  let txn := uuidOf g
  let url := sendEventURL c.Homeserver c.RoomID "m.call.answer" txn
  match post with
  | some e => ⟨c', g + 1, url, answer, .error e⟩
  | none => ⟨c', g + 1, url, answer, .ok ()⟩

/-- `SendCandidates` (src lines 105-120): same `callID` adoption rule as
`SendCallAnswer`; the `candidates` argument (a Go
`[]map[string]interface{}`) is carried opaquely into the payload. -/
def MatrixClient.SendCandidates (c : MatrixClient) (uuidOf : Nat → String)
    (g : Nat) (candidates : List JValue) (callID : String)
    (post : Option PostError) : SigSend Unit :=
  let c' := if callID ≠ "" then { c with CurrentCallID := callID } else c
  let payload : JValue := .obj [
    ("call_id", .str c'.CurrentCallID),
    ("party_id", .str c'.MyPartyID),
    ("version", .str "1"),
    ("candidates", .arr candidates)]
  let txn := uuidOf g
  let url := sendEventURL c.Homeserver c.RoomID "m.call.candidates" txn
  match post with
  | some e => ⟨c', g + 1, url, payload, .error e⟩
  | none => ⟨c', g + 1, url, payload, .ok ()⟩

/-- `GetUserID`. -/
def MatrixClient.GetUserID (c : MatrixClient) : String := c.UserID

/-- `GetAccessToken`. -/
def MatrixClient.GetAccessToken (c : MatrixClient) : String := c.AccessToken

/-- `GetPartyID`. -/
def MatrixClient.GetPartyID (c : MatrixClient) : String := c.MyPartyID

/-- `GetCallID`. -/
def MatrixClient.GetCallID (c : MatrixClient) : String := c.CurrentCallID

/-! ## Client (v2/v3) -/

/-- The WebRTC/audio `Client` of v2 (src lines 195-209) and v3 (489-502).
The channels are `Option`-valued: `none` is a Go nil channel (the zero value
before `NewClient` runs), `some q` a buffered channel holding queue `q`. -/
structure Client where
  homeserver : String
  accessToken : String
  userID : String
  roomID : String
  currentCallID : String
  myPartyID : String
  dataCh : Option (List (List Int))
  decodeCh : Option (List (List Int))

/-- `NewClient` (v2 lines 211-320, v3 lines 505-591): logs in (outcome
`loginResult`), creates the peer connection (`pcErr` is the outcome of
`webrtc.NewPeerConnection`), then builds the client with a fresh
`myPartyID` (`uuid.NewString()`, the draw `uuidOf g`), empty buffered
channels of capacity 50, and zero-valued `currentCallID`. -/
def NewClient (uuidOf : Nat → String) (g : Nat)
    (homeserver roomID : String)
    (loginResult : Except String (String × String))
    (pcErr : Option String) :
    Except String (Client × Nat) :=
  match loginResult with
  | .error e => .error ("login error: " ++ e)
  | .ok (userID, accessToken) =>
    match pcErr with
    | some e => .error ("NewPeerConnection: " ++ e)
    | none =>
        .ok ({ homeserver := homeserver, accessToken := accessToken,
               userID := userID, roomID := roomID,
               currentCallID := "", myPartyID := uuidOf g,
               dataCh := some [], decodeCh := some [] }, g + 1)

/-- The media-transport environment a `StartCall` runs against: outcomes of
`gopus.NewEncoder`, `webrtc.NewTrackLocalStaticSample`, `pc.AddTrack`,
`pc.CreateOffer` (an error, or the offer SDP), `pc.SetLocalDescription`,
and of sending the invite event. -/
structure RTCEnv where
  encoderErr : Option String
  newTrackErr : Option String
  addTrackErr : Option String
  createOffer : Except String String
  setLocalErr : Option String
  sendErr : Option String

/-- `BuildOfferSDP` (v2, src lines 386-396): `CreateOffer` then
`SetLocalDescription`, wait for gathering, return `off.SDP`. -/
def BuildOfferSDP (env : RTCEnv) : Except String String :=
  match env.createOffer with
  | .error e => .error ("CreateOffer error: " ++ e)
  | .ok sdp =>
    match env.setLocalErr with
    | some e => .error ("SetLocalDescription error: " ++ e)
    | none => .ok sdp

/-- Result of a `StartCall`: the updated client, the invite payload when
one was sent, and the returned error (`none` = success). -/
structure StartCallResult where
  client : Client
  payload : Option JValue
  ret : Option String

/-- `StartCall` (v2, src lines 322-384): every step's error is checked and
returned.  `t` is `time.Now().Unix()`, so `currentCallID` becomes
`"call-<t>"` before the offer is built.  The connection-state callback and
the background sync loop only register handlers and are not part of the
sequential state change. -/
def Client.StartCall_v2 (c : Client) (env : RTCEnv) (t : Int) :
    StartCallResult :=
  match env.encoderErr with
  | some e => ⟨c, none, some ("gopus encoder: " ++ e)⟩
  | none =>
  match env.newTrackErr with
  | some e => ⟨c, none, some ("create send track: " ++ e)⟩
  | none =>
  match env.addTrackErr with
  | some e => ⟨c, none, some ("add send track: " ++ e)⟩
  | none =>
    let c1 := { c with currentCallID := "call-" ++ toString t }
    match BuildOfferSDP env with
    | .error e => ⟨c1, none, some ("BuildOfferSDP error: " ++ e)⟩
    | .ok sdp =>
      let invite : JValue := .obj [
        ("call_id", .str c1.currentCallID),
        ("lifetime", .num 60000),
        ("offer", .obj [("type", .str "offer"), ("sdp", .str sdp)]),
        ("version", .str "1"),
        ("party_id", .str c1.myPartyID)]
      match env.sendErr with
      | some e => ⟨c1, some invite, some ("send invite: " ++ e)⟩
      | none => ⟨c1, some invite, none⟩

/-- `StartCall` (v3, src lines 594-629): the errors of `gopus.NewEncoder`,
`NewTrackLocalStaticSample`, `AddTrack`, `CreateOffer` and
`SetLocalDescription` are all discarded with `_`; when `CreateOffer` fails,
`off` is the zero `SessionDescription`, so the invite carries `sdp = ""`.
Only the `postJSON` send error is returned.  A fresh transaction id is
drawn (`uuid.NewString()`). -/
def Client.StartCall_v3 (c : Client) (env : RTCEnv)
    (uuidOf : Nat → String) (g : Nat) (t : Int) :
    StartCallResult × Nat :=
  let sdp := match env.createOffer with
    | .ok s => s
    | .error _ => ""
  let c1 := { c with currentCallID := "call-" ++ toString t }
  let invite : JValue := .obj [
    ("call_id", .str c1.currentCallID),
    ("party_id", .str c1.myPartyID),
    ("lifetime", .num 60000),
    ("offer", .obj [("type", .str "offer"), ("sdp", .str sdp)]),
    ("version", .str "1")]
  let txn := uuidOf g
  let _url := sendEventURL c.homeserver c.roomID "m.call.invite" txn
  match env.sendErr with
  | some e => (⟨c1, some invite, some e⟩, g + 1)
  | none => (⟨c1, some invite, none⟩, g + 1)

/-- `SendAudio` (v2, src lines 398-412): nil-channel guard, parse the bytes
into int16 samples, non-blocking send.  The v3 variant (632-642) is the
same body without the guard and with no return value. -/
def Client.SendAudio (c : Client) (data : List Nat) :
    Client × Option String :=
  match c.dataCh with
  | none => (c, some "client not initialized")
  | some q =>
      ({ c with dataCh := some (trySend q (parseSamples data)) }, none)

/-- `ReceiveAudio` (v2 lines 414-425, v3 lines 645-653): blocking receive
from `decodeCh`, then little-endian serialization.  A nil or empty channel
blocks the caller, modelled as `none`. -/
def Client.ReceiveAudio (c : Client) : Option (Client × List Nat) :=
  match c.decodeCh with
  | some (pcm :: rest) =>
      some ({ c with decodeCh := some rest }, serializeSamples pcm)
  | _ => none

/-! ## OnICECandidate handler -/

/-- The fields of `cand.ToJSON()` (webrtc `ICECandidateInit`): `Candidate`
is a string, `SDPMid` and `SDPMLineIndex` are nullable. -/
structure ICECandidateInit where
  candidate : String
  sdpMid : Option String
  sdpMLineIndex : Option Nat

/-- JSON of a nullable string. -/
def jsonOfOptStr : Option String → JValue
  | none => .null
  | some s => .str s

/-- JSON of a nullable index. -/
def jsonOfOptNat : Option Nat → JValue
  | none => .null
  | some n => .num n

/-- The `pc.OnICECandidate` handler (v2 src lines 250-275, v3 lines
543-563): a nil candidate (end of gathering) emits nothing; otherwise one
`m.call.candidates` message is emitted whose `candidates` array holds
exactly the one candidate, tagged with the client's current `call_id` and
`party_id`.  Both variants build the identical payload; a send failure is
only logged. -/
def Client.onICECandidate (c : Client) (cand : Option ICECandidateInit) :
    Option JValue :=
  match cand with
  | none => none
  | some ice => some (.obj [
      ("call_id", .str c.currentCallID),
      ("party_id", .str c.myPartyID),
      ("version", .str "1"),
      ("candidates", .arr [.obj [
        ("candidate", .str ice.candidate),
        ("sdpMid", jsonOfOptStr ice.sdpMid),
        ("sdpMLineIndex", jsonOfOptNat ice.sdpMLineIndex)]])])

/-! ## A concrete uuid supply for witnesses

`uuid.NewString()` is the external uuid library.  Modelled from the spec:
"`call_id` is generated once per call attempt (globally unique);
`local_party_id` is generated once per client lifetime" — the library is an
injective supply of non-empty opaque strings, indexed by draw order.
Theorems take the supply and its freshness as hypotheses; `uuidSupply` is a
concrete injective non-empty-valued supply used to discharge them in
witnesses. -/

/-- A concrete injective supply of non-empty strings standing in for the
uuid library in witnesses. -/
def uuidSupply (n : Nat) : String := String.mk (List.replicate (n + 1) 'u')

/-- Structural form of the `SendAudio` parsing loop, used in proofs. -/
def parsePairs : List Nat → List Int
  | lo :: hi :: rest => int16OfBytes lo hi :: parsePairs rest
  | _ => []

/-- The key set every invite payload must carry, per the spec. -/
def inviteKeys : List String :=
  ["call_id", "party_id", "lifetime", "offer", "version"]

/-- Fixture v1 client for witnesses. -/
def witClient1 : MatrixClient :=
  { Homeserver := "h", AccessToken := "a", UserID := "u", RoomID := "r",
    CurrentCallID := "", MyPartyID := "p" }

/-- Fixture v2/v3 client for witnesses. -/
def witClient : Client :=
  { homeserver := "h", accessToken := "a", userID := "u", roomID := "r",
    currentCallID := "", myPartyID := "p",
    dataCh := some [], decodeCh := some [] }

/-- Fixture transport environment in which every step succeeds. -/
def witEnvOk : RTCEnv :=
  { encoderErr := none, newTrackErr := none, addTrackErr := none,
    createOffer := .ok "v=0", setLocalErr := none, sendErr := none }

/-- Fixture transport environment in which `CreateOffer` fails and
everything else succeeds. -/
def witEnvOfferFail : RTCEnv :=
  { encoderErr := none, newTrackErr := none, addTrackErr := none,
    createOffer := .error "boom", setLocalErr := none, sendErr := none }

/-- Fixture HTTP environment: request performed, status 200, body fails to
decode. -/
def witHttpDecodeFail : HttpEnv :=
  { marshalResult := .ok "body", newRequestErr := none,
    doResult := .ok (200, "not json"), decodeErr := some "invalid character" }

/-- Fixture HTTP environment: request performed, status 404. -/
def witHttp404 : HttpEnv :=
  { marshalResult := .ok "body", newRequestErr := none,
    doResult := .ok (404, "nope"), decodeErr := none }

/-! ## Helper lemmas -/

theorem uuidSupply_injective : Function.Injective uuidSupply := by
  intro a b h
  have hdata := congrArg String.data h
  simp only [uuidSupply] at hdata
  have := congrArg List.length hdata
  simpa using this

theorem uuidSupply_ne_empty (n : Nat) : uuidSupply n ≠ "" := by
  intro h
  have hdata := congrArg String.data h
  simp [uuidSupply] at hdata

theorem int16OfBytes_bytesOfInt16 (v : Int) (h1 : -32768 ≤ v)
    (h2 : v < 32768) :
    int16OfBytes (bytesOfInt16 v).1 (bytesOfInt16 v).2 = v := by
  unfold bytesOfInt16 int16OfBytes
  dsimp only
  split <;> omega

theorem parseSamples_nil : parseSamples [] = [] := rfl

theorem parseSamples_single (a : Nat) : parseSamples [a] = [] := by
  simp [parseSamples]

theorem parseSamples_cons2 (a b : Nat) (rest : List Nat) :
    parseSamples (a :: b :: rest) = int16OfBytes a b :: parseSamples rest := by
  unfold parseSamples
  have hlen : (a :: b :: rest).length / 2 = rest.length / 2 + 1 := by
    simp only [List.length_cons]
    omega
  rw [hlen, List.range_succ_eq_map, List.map_cons, List.map_map]
  refine congrArg₂ _ rfl (List.map_congr_left ?_)
  intro i _
  have e1 : 2 * (i + 1) = (2 * i + 1) + 1 := by omega
  have e2 : 2 * (i + 1) + 1 = (2 * i + 1 + 1) + 1 := by omega
  simp [Function.comp, e1, e2]

theorem parseSamples_eq_parsePairs : ∀ l : List Nat,
    parseSamples l = parsePairs l
  | [] => rfl
  | [a] => by rw [parseSamples_single]; rfl
  | a :: b :: rest => by
      rw [parseSamples_cons2, parseSamples_eq_parsePairs rest, parsePairs]

theorem serializeSamples_length (l : List Int) :
    (serializeSamples l).length = 2 * l.length := by
  induction l with
  | nil => rfl
  | cons v rest ih => simp [serializeSamples, ih]; omega

theorem parseSamples_serializeSamples (l : List Int)
    (h : ∀ v ∈ l, -32768 ≤ v ∧ v < 32768) :
    parseSamples (serializeSamples l) = l := by
  induction l with
  | nil => rfl
  | cons v rest ih =>
      have hv := h v (by simp)
      rw [serializeSamples, parseSamples_cons2,
        int16OfBytes_bytesOfInt16 v hv.1 hv.2,
        ih (fun w hw => h w (by simp [hw]))]

theorem parseSamples_length (data : List Nat) :
    (parseSamples data).length = data.length / 2 := by
  simp [parseSamples]

theorem parsePairs_dropLast : ∀ l : List Nat, l.length % 2 = 1 →
    parsePairs l.dropLast = parsePairs l
  | [], h => by simp at h
  | [_], _ => rfl
  | a :: b :: rest, h => by
      have hr : rest.length % 2 = 1 := by
        simp only [List.length_cons] at h
        omega
      match rest, hr with
      | c :: rest', hr =>
        have hd : (a :: b :: c :: rest').dropLast
            = a :: b :: (c :: rest').dropLast := rfl
        rw [hd, parsePairs, parsePairs, parsePairs_dropLast (c :: rest') hr]

theorem parseSamples_dropLast (data : List Nat) (h : data.length % 2 = 1) :
    parseSamples data.dropLast = parseSamples data := by
  rw [parseSamples_eq_parsePairs, parseSamples_eq_parsePairs,
    parsePairs_dropLast data h]

theorem call_string_ne_empty (s : String) : "call-" ++ s ≠ "" := by
  intro h
  have hlen := congrArg String.length h
  rw [String.length_append] at hlen
  have h1 : ("call-" : String).length = 5 := rfl
  have h2 : ("" : String).length = 0 := rfl
  omega

/-! ## Claim theorems -/

/-- C1: `SendAudio` is non-blocking; on a full queue (50 frames already
buffered) the arriving frame is dropped, every queued frame is preserved,
the FIFO order is unchanged, and no error is reported. -/
theorem sendAudio_full_queue_drops_newest (c : Client)
    (q : List (List Int)) (data : List Nat)
    (hq : c.dataCh = some q) (hfull : q.length = chanCap) :
    (c.SendAudio data).1.dataCh = some q
    ∧ (c.SendAudio data).2 = none := by
  simp [Client.SendAudio, hq, trySend, hfull]

theorem sendAudio_full_queue_drops_newest_witness :
    let c : Client :=
      { homeserver := "h", accessToken := "a", userID := "u", roomID := "r",
        currentCallID := "", myPartyID := "p",
        dataCh := some (List.replicate 50 [7]), decodeCh := some [] }
    (c.SendAudio [1, 2]).1.dataCh = some (List.replicate 50 [7])
    ∧ (c.SendAudio [1, 2]).2 = none :=
  sendAudio_full_queue_drops_newest _ (List.replicate 50 [7]) [1, 2] rfl rfl

/-- C8: the boundary PCM codecs are mutually inverse little-endian 16-bit
codecs: serializing int16 samples as `ReceiveAudio` does and parsing the
bytes as `SendAudio` does returns the original samples, and the byte
output is exactly twice as long as the sample list. -/
theorem pcm_roundtrip (l : List Int)
    (h : ∀ v ∈ l, -32768 ≤ v ∧ v < 32768) :
    parseSamples (serializeSamples l) = l
    ∧ (serializeSamples l).length = 2 * l.length :=
  ⟨parseSamples_serializeSamples l h, serializeSamples_length l⟩

theorem pcm_roundtrip_witness :
    parseSamples (serializeSamples [0, 1, -1, 32767, -32768])
        = [0, 1, -1, 32767, -32768]
    ∧ (serializeSamples [0, 1, -1, 32767, -32768]).length
        = 2 * ([0, 1, -1, 32767, -32768] : List Int).length :=
  pcm_roundtrip [0, 1, -1, 32767, -32768] (by decide)

/-- C10: on an odd-length byte slice `SendAudio` silently ignores the final
byte — exactly `len/2` samples are parsed, no error is reported (on an
initialized client), and the call behaves identically to one on the first
`len - 1` bytes. -/
theorem sendAudio_odd_length_drops_last_byte (c : Client)
    (data : List Nat) (h : data.length % 2 = 1) :
    c.SendAudio data = c.SendAudio data.dropLast
    ∧ (parseSamples data).length = data.length / 2
    ∧ (∀ q, c.dataCh = some q → (c.SendAudio data).2 = none) := by
  refine ⟨?_, parseSamples_length data, ?_⟩
  · unfold Client.SendAudio
    rw [parseSamples_dropLast data h]
  · intro q hq
    simp [Client.SendAudio, hq]

/-- C3: `SendCallAnswer(sdp, callID)` and `SendCandidates(candidates,
callID)` keep the stored `CurrentCallID` when `callID` is empty and adopt
`callID` when it is non-empty; in both cases the (possibly updated)
`CurrentCallID` is the `call_id` placed in the sent payload. -/
theorem answer_candidates_call_id_adoption (c : MatrixClient)
    (uuidOf : Nat → String) (g : Nat) (sdpAnswer callID : String)
    (candidates : List JValue) (post post' : Option PostError) :
    (c.SendCallAnswer uuidOf g sdpAnswer callID post).client.CurrentCallID
        = (if callID = "" then c.CurrentCallID else callID)
    ∧ (c.SendCallAnswer uuidOf g sdpAnswer callID post).payload.lookup
          "call_id"
        = some (.str (c.SendCallAnswer uuidOf g sdpAnswer callID
            post).client.CurrentCallID)
    ∧ (c.SendCandidates uuidOf g candidates callID post').client.CurrentCallID
        = (if callID = "" then c.CurrentCallID else callID)
    ∧ (c.SendCandidates uuidOf g candidates callID post').payload.lookup
          "call_id"
        = some (.str (c.SendCandidates uuidOf g candidates callID
            post').client.CurrentCallID) := by
  cases post <;> cases post' <;> by_cases h : callID = "" <;>
    simp [MatrixClient.SendCallAnswer, MatrixClient.SendCandidates, h,
      JValue.lookup]

/-- C6: for every locally gathered ICE candidate the handler emits exactly
one Candidates message whose `candidates` array has exactly one element
holding the candidate's `candidate`, `sdpMid` and `sdpMLineIndex` fields,
tagged with the session's current `call_id` and `party_id`; a nil candidate
emits nothing (no batching ever occurs). -/
theorem onICECandidate_single_candidate_message (cl : Client)
    (ice : ICECandidateInit) :
    (∃ msg, cl.onICECandidate (some ice) = some msg
      ∧ msg.lookup "call_id" = some (.str cl.currentCallID)
      ∧ msg.lookup "party_id" = some (.str cl.myPartyID)
      ∧ msg.lookup "version" = some (.str "1")
      ∧ ∃ candObj, msg.lookup "candidates" = some (.arr [candObj])
        ∧ candObj.lookup "candidate" = some (.str ice.candidate)
        ∧ candObj.lookup "sdpMid" = some (jsonOfOptStr ice.sdpMid)
        ∧ candObj.lookup "sdpMLineIndex"
            = some (jsonOfOptNat ice.sdpMLineIndex))
    ∧ cl.onICECandidate none = none := by
  exact ⟨⟨_, rfl, rfl, rfl, rfl, _, rfl, rfl, rfl, rfl⟩, rfl⟩

/-- C7: every invite payload sent by `SendCallInvite` or `StartCall` is a
JSON object with exactly the keys `call_id`, `party_id`, `lifetime` (an
integer millisecond count), `offer` (an object with `type = "offer"` and an
`sdp` string) and `version = "1"`. -/
theorem invite_payload_shape (c : MatrixClient) (uuidOf : Nat → String)
    (g g' : Nat) (sdp : String) (post : Option PostError)
    (cl : Client) (env : RTCEnv) (t : Int) :
    ((c.SendCallInvite uuidOf g sdp post).payload.keys.Perm inviteKeys
      ∧ (c.SendCallInvite uuidOf g sdp post).payload.lookup "version"
          = some (.str "1")
      ∧ (c.SendCallInvite uuidOf g sdp post).payload.lookup "lifetime"
          = some (.num 120000)
      ∧ (c.SendCallInvite uuidOf g sdp post).payload.lookup "offer"
          = some (.obj [("type", .str "offer"), ("sdp", .str sdp)]))
    ∧ (match (cl.StartCall_v2 env t).payload with
        | some inv => inv.keys.Perm inviteKeys
            ∧ inv.lookup "version" = some (.str "1")
            ∧ inv.lookup "lifetime" = some (.num 60000)
            ∧ ∃ s, inv.lookup "offer"
                = some (.obj [("type", .str "offer"), ("sdp", .str s)])
        | none => True)
    ∧ (match (cl.StartCall_v3 env uuidOf g' t).1.payload with
        | some inv => inv.keys.Perm inviteKeys
            ∧ inv.lookup "version" = some (.str "1")
            ∧ inv.lookup "lifetime" = some (.num 60000)
            ∧ ∃ s, inv.lookup "offer"
                = some (.obj [("type", .str "offer"), ("sdp", .str s)])
        | none => True) := by
  obtain ⟨ee, nt, at_, co, sl, se⟩ := env
  refine ⟨?_, ?_, ?_⟩
  · have hperm : (["call_id", "party_id", "lifetime", "offer", "version"] :
        List String).Perm inviteKeys := by decide
    cases post <;> exact ⟨hperm, rfl, rfl, rfl⟩
  · have hperm : (["call_id", "lifetime", "offer", "version", "party_id"] :
        List String).Perm inviteKeys := by decide
    cases ee <;> cases nt <;> cases at_ <;> cases co <;> cases sl <;>
      cases se <;> first
        | trivial
        | exact ⟨hperm, rfl, rfl, _, rfl⟩
  · have hperm : (["call_id", "party_id", "lifetime", "offer", "version"] :
        List String).Perm inviteKeys := by decide
    cases co <;> cases se <;> exact ⟨hperm, rfl, rfl, _, rfl⟩

/-- C9: the party identifier is generated exactly once, at client
construction (`uuid.NewString()`), and no operation of either client
variant changes it; every signaling payload carries the stored party id. -/
theorem party_id_stable (uuidOf : Nat → String) (g : Nat)
    (hs rm : String) (login : Except PostError (String × String))
    (login' : Except String (String × String)) (pcErr : Option String)
    (c : MatrixClient) (cl : Client) (sdp sdp2 callID : String)
    (cands : List JValue) (post p1 p2 : Option PostError)
    (env : RTCEnv) (t : Int) (data : List Nat)
    (cand : ICECandidateInit) :
    (match NewMatrixClient uuidOf g hs rm login with
      | .ok (c0, _) => c0.MyPartyID = uuidOf g
      | .error _ => True)
    ∧ (match NewClient uuidOf g hs rm login' pcErr with
      | .ok (c0, _) => c0.myPartyID = uuidOf g
      | .error _ => True)
    ∧ (c.SendCallInvite uuidOf g sdp post).client.MyPartyID = c.MyPartyID
    ∧ (c.SendCallInvite uuidOf g sdp post).payload.lookup "party_id"
        = some (.str c.MyPartyID)
    ∧ (c.SendCallAnswer uuidOf g sdp2 callID p1).client.MyPartyID
        = c.MyPartyID
    ∧ (c.SendCallAnswer uuidOf g sdp2 callID p1).payload.lookup "party_id"
        = some (.str c.MyPartyID)
    ∧ (c.SendCandidates uuidOf g cands callID p2).client.MyPartyID
        = c.MyPartyID
    ∧ (c.SendCandidates uuidOf g cands callID p2).payload.lookup "party_id"
        = some (.str c.MyPartyID)
    ∧ (cl.StartCall_v2 env t).client.myPartyID = cl.myPartyID
    ∧ (match (cl.StartCall_v2 env t).payload with
        | some p => p.lookup "party_id" = some (.str cl.myPartyID)
        | none => True)
    ∧ (cl.StartCall_v3 env uuidOf g t).1.client.myPartyID = cl.myPartyID
    ∧ (match (cl.StartCall_v3 env uuidOf g t).1.payload with
        | some p => p.lookup "party_id" = some (.str cl.myPartyID)
        | none => True)
    ∧ (cl.SendAudio data).1.myPartyID = cl.myPartyID
    ∧ (match cl.ReceiveAudio with
        | some (cl', _) => cl'.myPartyID = cl.myPartyID
        | none => True)
    ∧ (match cl.onICECandidate (some cand) with
        | some p => p.lookup "party_id" = some (.str cl.myPartyID)
        | none => True)
    ∧ c.GetPartyID = c.MyPartyID := by
  obtain ⟨ee, nt, at_, co, sl, se⟩ := env
  refine ⟨?_, ?_, ?_, ?_, ?_, ?_, ?_, ?_, ?_, ?_, ?_, ?_, ?_, ?_, rfl, rfl⟩
  · cases login with
    | error e => trivial
    | ok v => obtain ⟨u, a⟩ := v; rfl
  · cases login' with
    | error e => trivial
    | ok v => obtain ⟨u, a⟩ := v; cases pcErr <;> trivial
  · cases post <;> rfl
  · cases post <;> rfl
  · cases p1 <;> by_cases h : callID = "" <;>
      simp [MatrixClient.SendCallAnswer, h, JValue.lookup]
  · cases p1 <;> by_cases h : callID = "" <;>
      simp [MatrixClient.SendCallAnswer, h, JValue.lookup]
  · cases p2 <;> by_cases h : callID = "" <;>
      simp [MatrixClient.SendCandidates, h, JValue.lookup]
  · cases p2 <;> by_cases h : callID = "" <;>
      simp [MatrixClient.SendCandidates, h, JValue.lookup]
  · cases ee <;> cases nt <;> cases at_ <;> cases co <;> cases sl <;>
      cases se <;> rfl
  · cases ee <;> cases nt <;> cases at_ <;> cases co <;> cases sl <;>
      cases se <;> trivial
  · cases co <;> cases se <;> rfl
  · cases co <;> cases se <;> trivial
  · cases hq : cl.dataCh <;> simp [Client.SendAudio, hq]
  · cases hq : cl.decodeCh with
    | none => simp [Client.ReceiveAudio, hq]
    | some q => cases q <;> simp [Client.ReceiveAudio, hq]

theorem sendAudio_odd_length_drops_last_byte_witness :
    let c : Client :=
      { homeserver := "h", accessToken := "a", userID := "u", roomID := "r",
        currentCallID := "", myPartyID := "p",
        dataCh := some [], decodeCh := some [] }
    c.SendAudio [1, 2, 3] = c.SendAudio ([1, 2, 3] : List Nat).dropLast
    ∧ (parseSamples [1, 2, 3]).length = ([1, 2, 3] : List Nat).length / 2
    ∧ (∀ q, c.dataCh = some q → (c.SendAudio [1, 2, 3]).2 = none) :=
  sendAudio_odd_length_drops_last_byte _ [1, 2, 3] rfl

/-- C2 counterexample: `StartCall` derives the call_id from
`time.Now().Unix()`, so two distinct successful call attempts within the
same second (here both at second 100) carry the identical call_id
`"call-100"` in their sent invites — the claimed global uniqueness fails. -/
theorem startCall_same_second_call_id_collision :
    (witClient.StartCall_v3 witEnvOk uuidSupply 0 100).1.ret = none
    ∧ ((witClient.StartCall_v3 witEnvOk uuidSupply 0 100).1.client.StartCall_v3
        witEnvOk uuidSupply
        (witClient.StartCall_v3 witEnvOk uuidSupply 0 100).2 100).1.ret = none
    ∧ (witClient.StartCall_v3 witEnvOk uuidSupply 0
        100).1.client.currentCallID = "call-100"
    ∧ ((witClient.StartCall_v3 witEnvOk uuidSupply 0 100).1.client.StartCall_v3
        witEnvOk uuidSupply
        (witClient.StartCall_v3 witEnvOk uuidSupply 0
          100).2 100).1.client.currentCallID = "call-100"
    ∧ ((witClient.StartCall_v3 witEnvOk uuidSupply 0 100).1.payload.map
        (fun p => p.lookup "call_id"))
      = (((witClient.StartCall_v3 witEnvOk uuidSupply 0
          100).1.client.StartCall_v3 witEnvOk uuidSupply
          (witClient.StartCall_v3 witEnvOk uuidSupply 0
            100).2 100).1.payload.map (fun p => p.lookup "call_id")) :=
  ⟨rfl, rfl, rfl, rfl, rfl⟩

/-- C2 (amended): `SendCallInvite` draws a fresh uuid per attempt, so any
two consecutive attempts carry distinct, non-empty call_ids, and the
call_id in the sent invite is exactly the stored one; `StartCall`'s call_id
`"call-<unix-seconds>"` is non-empty and is the call_id in its invite, but
it is only distinct across attempts made in distinct seconds. -/
theorem callId_generation_fresh (uuidOf : Nat → String)
    (hinj : Function.Injective uuidOf) (hne : ∀ n, uuidOf n ≠ "")
    (c : MatrixClient) (g : Nat) (sdp1 sdp2 : String)
    (p1 p2 : Option PostError) (cl : Client) (env : RTCEnv) (g' : Nat)
    (t : Int) :
    (c.SendCallInvite uuidOf g sdp1 p1).client.CurrentCallID
        ≠ ((c.SendCallInvite uuidOf g sdp1 p1).client.SendCallInvite uuidOf
            (c.SendCallInvite uuidOf g sdp1 p1).gen sdp2
            p2).client.CurrentCallID
    ∧ (c.SendCallInvite uuidOf g sdp1 p1).payload.lookup "call_id"
        = some (.str (c.SendCallInvite uuidOf g sdp1 p1).client.CurrentCallID)
    ∧ (c.SendCallInvite uuidOf g sdp1 p1).client.CurrentCallID ≠ ""
    ∧ (match (cl.StartCall_v3 env uuidOf g' t).1.payload with
        | some p => p.lookup "call_id" = some (.str ("call-" ++ toString t))
            ∧ "call-" ++ toString t ≠ ""
        | none => True) := by
  have hg : uuidOf g ≠ uuidOf (g + 2) := by
    intro h
    have := hinj h
    omega
  refine ⟨?_, ?_, ?_, ?_⟩
  · cases p1 <;> cases p2 <;> exact hg
  · cases p1 <;> rfl
  · cases p1 <;> exact hne g
  · obtain ⟨ee, nt, at_, co, sl, se⟩ := env
    cases co <;> cases se <;>
      exact ⟨rfl, call_string_ne_empty (toString t)⟩

theorem callId_generation_fresh_witness :
    (witClient1.SendCallInvite uuidSupply 0 "s1" none).client.CurrentCallID
        ≠ ((witClient1.SendCallInvite uuidSupply 0 "s1"
            none).client.SendCallInvite uuidSupply
            (witClient1.SendCallInvite uuidSupply 0 "s1" none).gen "s2"
            none).client.CurrentCallID
    ∧ (witClient1.SendCallInvite uuidSupply 0 "s1" none).payload.lookup
          "call_id"
        = some (.str (witClient1.SendCallInvite uuidSupply 0 "s1"
            none).client.CurrentCallID)
    ∧ (witClient1.SendCallInvite uuidSupply 0 "s1"
        none).client.CurrentCallID ≠ ""
    ∧ (match (witClient.StartCall_v3 witEnvOk uuidSupply 0 5).1.payload with
        | some p => p.lookup "call_id"
              = some (.str ("call-" ++ toString (5 : Int)))
            ∧ "call-" ++ toString (5 : Int) ≠ ""
        | none => True) :=
  callId_generation_fresh uuidSupply uuidSupply_injective uuidSupply_ne_empty
    witClient1 0 "s1" "s2" none none witClient witEnvOk 0 5

/-- C4 counterexample: with the request fully performed and status 200 but
a response body that fails to decode, `postJSON` still returns an error —
so "error iff the request cannot be performed or status ≥ 300" fails. -/
theorem postJSON_decode_error_below_300 :
    postJSON witHttpDecodeFail false = some (.decodeErr "invalid character")
    ∧ witHttpDecodeFail.performed = true
    ∧ witHttpDecodeFail.status = some 200 :=
  ⟨rfl, rfl, rfl⟩

/-- C4 (amended): `postJSON` succeeds iff marshalling, request construction
and the HTTP round trip succeed, the status is < 300, and (out is nil or
the body decodes); a received status ≥ 300 is always surfaced as an error
carrying exactly that status and body; and an HTTP-status error is produced
only for a received status ≥ 300. -/
theorem postJSON_error_characterization (env : HttpEnv) (outNil : Bool) :
    (postJSON env outNil = none ↔
      (env.marshalResult.isOk = true ∧ env.newRequestErr = none
        ∧ (∃ s b, env.doResult = .ok (s, b) ∧ s < 300)
        ∧ (outNil = true ∨ env.decodeErr = none)))
    ∧ (∀ s b, env.doResult = .ok (s, b) → 300 ≤ s →
        env.marshalResult.isOk = true → env.newRequestErr = none →
        postJSON env outNil = some (.httpErr s b))
    ∧ (∀ s b, postJSON env outNil = some (.httpErr s b) →
        env.doResult = .ok (s, b) ∧ 300 ≤ s) := by
  obtain ⟨mr, nr, dr, de⟩ := env
  refine ⟨⟨?_, ?_⟩, ?_, ?_⟩
  · intro hnone
    cases mr with
    | error m => simp [postJSON] at hnone
    | ok d =>
      cases nr with
      | some m => simp [postJSON] at hnone
      | none =>
        cases dr with
        | error m => simp [postJSON] at hnone
        | ok p =>
          obtain ⟨s, b⟩ := p
          by_cases h : s ≥ 300
          · simp [postJSON, h] at hnone
          · refine ⟨rfl, rfl, ⟨s, b, rfl, by omega⟩, ?_⟩
            cases de with
            | none => exact Or.inr rfl
            | some m =>
              cases outNil with
              | true => exact Or.inl rfl
              | false => simp [postJSON, h] at hnone
  · rintro ⟨hmr, hnr, ⟨s, b, hdr, hs⟩, hrest⟩
    cases mr with
    | error m => simp [Except.isOk, Except.toBool] at hmr
    | ok d =>
      subst hnr
      subst hdr
      have hns : ¬s ≥ 300 := by omega
      cases de with
      | none => cases outNil <;> simp [postJSON, hns]
      | some m =>
        rcases hrest with ho | hd
        · rw [ho]
          simp [postJSON, hns]
        · simp at hd
  · intro s b hdr h300 hmr hnr
    cases mr with
    | error m => simp [Except.isOk, Except.toBool] at hmr
    | ok d =>
      subst hnr
      subst hdr
      simp [postJSON, h300]
  · intro s b h
    cases mr with
    | error m => simp [postJSON] at h
    | ok d =>
      cases nr with
      | some m => simp [postJSON] at h
      | none =>
        cases dr with
        | error m => simp [postJSON] at h
        | ok p =>
          obtain ⟨s', b'⟩ := p
          by_cases h3 : s' ≥ 300
          · simp [postJSON, h3] at h
            obtain ⟨hs, hb⟩ := h
            subst hs
            subst hb
            exact ⟨rfl, by omega⟩
          · cases de with
            | none => cases outNil <;> simp [postJSON, h3] at h
            | some m => cases outNil <;> simp [postJSON, h3] at h

theorem postJSON_error_characterization_witness :
    postJSON witHttp404 false = some (.httpErr 404 "nope") :=
  (postJSON_error_characterization witHttp404 false).2.1
    404 "nope" rfl (by omega) rfl rfl

/-- C5 counterexample: the v3 `StartCall` discards the `CreateOffer` error:
with offer creation failing and the send succeeding it reports success, and
the sent invite carries the zero-value sdp `""`. -/
theorem startCall_v3_ignores_offer_failure :
    (witClient.StartCall_v3 witEnvOfferFail uuidSupply 0 7).1.ret = none
    ∧ ((witClient.StartCall_v3 witEnvOfferFail uuidSupply 0 7).1.payload.map
        (fun p => p.lookup "offer"))
        = some (some (.obj [("type", .str "offer"), ("sdp", .str "")])) :=
  ⟨rfl, rfl⟩

/-- C5 (amended): the v2 `StartCall` returns a failure whenever offer
creation (`CreateOffer` / `SetLocalDescription`) fails and whenever sending
the invite fails, reporting no success in either case; the v3 `StartCall`
returns a failure exactly when the invite send fails, silently discarding
offer-creation failures. -/
theorem startCall_failure_reporting (cl : Client) (env : RTCEnv) (t : Int)
    (uuidOf : Nat → String) (g : Nat) :
    (∀ e, env.createOffer = .error e → (cl.StartCall_v2 env t).ret ≠ none)
    ∧ (∀ e, env.setLocalErr = some e → (cl.StartCall_v2 env t).ret ≠ none)
    ∧ (∀ e, env.sendErr = some e → (cl.StartCall_v2 env t).ret ≠ none)
    ∧ ((cl.StartCall_v3 env uuidOf g t).1.ret = none
        ↔ env.sendErr = none) := by
  obtain ⟨ee, nt, at_, co, sl, se⟩ := env
  refine ⟨?_, ?_, ?_, ?_⟩
  · intro e he
    cases ee <;> cases nt <;> cases at_ <;> cases co <;> cases sl <;>
      cases se <;> simp_all [Client.StartCall_v2, BuildOfferSDP]
  · intro e he
    cases ee <;> cases nt <;> cases at_ <;> cases co <;> cases sl <;>
      cases se <;> simp_all [Client.StartCall_v2, BuildOfferSDP]
  · intro e he
    cases ee <;> cases nt <;> cases at_ <;> cases co <;> cases sl <;>
      cases se <;> simp_all [Client.StartCall_v2, BuildOfferSDP]
  · cases co <;> cases se <;> simp [Client.StartCall_v3]

theorem startCall_failure_reporting_witness :
    (witClient.StartCall_v2 witEnvOfferFail 3).ret ≠ none :=
  (startCall_failure_reporting witClient witEnvOfferFail 3 uuidSupply 0).1
    "boom" rfl

end MatrixDLL
